import Mathlib

/-!
Verification of the session/token lifecycle subsystem.

Shallow embedding of the authentication subsystem of the repository:

* `AuthProvider` (the shared auth store with `updateTokens`),
* `useAuth` (`login`, `logout`, the profile fetch and its merge),
* `useRefreshToken` (the proactive refresh scheduler built on `useSWR`).

Modelling conventions:

* The three observable states in JavaScript of a store field — `undefined`
  (uninitialized), `null` (absent) and a value — are modelled by `TriState`.
* Timestamp strings are modelled by the epoch-millisecond value the code
  extracts from them via `new Date(s).getTime()`; the JavaScript truthiness
  test on such a timestamp is modelled as the value being nonzero.
* The `onAuthChange` notifier invocations performed by a transition are
  collected in an explicit event list (one entry per invocation, carrying
  the value passed: a token pair or `null`).
* React batches the state-setter calls inside one event handler into a
  single commit, so `updateTokens` is modelled as one atomic transition.
* A network exchange is modelled by passing the response (or failure) the
  remote service would produce as an explicit `ApiResult` argument; a
  transition records in `networkCalled` whether it performed the exchange.
-/

/-- A token pair as stored by the auth context.  Expiry fields hold the
epoch-millisecond value of the timestamp (`new Date(s).getTime()`). -/
structure TokenPair where
  access : String
  accessExpiresAt : Nat
  refresh : String
  refreshExpiresAt : Nat
deriving Repr, DecidableEq

/-- The current-user record of the auth context. -/
structure User where
  email : String
  name : String
  userId : String
deriving Repr, DecidableEq

/-- The three observable states of a JavaScript store field:
`undefined` (uninitialized), `null` (absent), or a value (present). -/
inductive TriState (α : Type) where
  | undefinedV : TriState α
  | nullV : TriState α
  | val : α → TriState α
deriving Repr, DecidableEq

/-- JavaScript truthiness of a `TriState` holding an object: objects are
truthy, `null` and `undefined` are falsy. -/
def TriState.isPresent {α : Type} : TriState α → Bool
  | TriState.val _ => true
  | _ => false

/-- Embed `TokenPair | null` (the argument type of `updateTokens`,
a token pair or null, never undefined) into the store field type. -/
def toTri {α : Type} : Option α → TriState α
  | some a => TriState.val a
  | none => TriState.nullV

/-- The state held by `AuthProvider`: the `tokens` and `currentUser`
`useState` cells. -/
structure AuthState where
  tokens : TriState TokenPair
  currentUser : TriState User
deriving Repr, DecidableEq

/-- The provisional placeholder user derived by `updateTokens` when a
present token pair is committed. -/
def provisionalUser : User := { email := "", name := "", userId := "" }

/-- Function `updateTokens` from `AuthProvider`: sets `tokens`, derives
`currentUser` (the provisional placeholder when `tokens` is truthy, null otherwise), and
invokes `onAuthChange?.(tokens)` once.  Returns the new state and the list
of notifier invocations. -/
def updateTokens (st : AuthState) (tokens : Option TokenPair) :
    AuthState × List (Option TokenPair) :=
  ({ tokens := toTri tokens,
     currentUser :=
       match tokens with
       | some _ => TriState.val provisionalUser
       | none => TriState.nullV },
   [tokens])

/-- The raw `setCurrentUser` state setter exposed by the auth context
(used by the profile-fetch `onSuccess`, by `logout`, and by the refresh
`onError`); it touches only `currentUser` and notifies nobody. -/
def setCurrentUser (st : AuthState) (u : TriState User) : AuthState :=
  { st with currentUser := u }

/-- The initial state of `AuthProvider`: both `useState` cells start at
`undefined`.  The `initialTokens` prop is destructured from `props` but
never read afterwards, so the argument does not influence the result. -/
def authProviderInit (initialTokens : Option (Option TokenPair)) : AuthState :=
  { tokens := TriState.undefinedV, currentUser := TriState.undefinedV }

/-- The body of a successful token response from the remote service
(`POST /v3/auth/login` and `POST /v3/auth/refresh` share this shape). -/
structure TokenResponse where
  accessToken : String
  accessTokenExpiresAt : Nat
  refreshToken : String
  refreshTokenExpiresAt : Nat
deriving Repr, DecidableEq

/-- Outcome of a network exchange: an `ok` response with data, or a
non-success response / network error carrying a message. -/
inductive ApiResult (α : Type) where
  | ok : α → ApiResult α
  | err : String → ApiResult α
deriving Repr, DecidableEq

/-- The token pair `login` / the refresh handler build from a successful
token response before committing it via `setTokens`. -/
def pairOfResponse (r : TokenResponse) : TokenPair :=
  { access := r.accessToken,
    accessExpiresAt := r.accessTokenExpiresAt,
    refresh := r.refreshToken,
    refreshExpiresAt := r.refreshTokenExpiresAt }

/-- The errors thrown by `login` / `logout`, named as in the design
taxonomy.  The messages in the code are, in order: "User is already
logged in.", "Wrong credentials", "No user is currently logged in.". -/
inductive AuthError where
  | alreadyAuthenticated
  | invalidCredentials
  | notAuthenticated
deriving Repr, DecidableEq

/-- Result of one user-facing or scheduler-triggered operation: the state
after all commits, the `onAuthChange` invocations performed, whether a
network exchange was performed, and the error thrown (if any). -/
structure OpResult where
  state : AuthState
  events : List (Option TokenPair)
  networkCalled : Bool
  error : Option AuthError
deriving Repr, DecidableEq

/-- Function `login` from `useAuth`: throws if `authContext.currentUser` is truthy
(before any network call); otherwise exchanges the credentials, throws on
a non-ok response, and on success commits the whole response pair via
`authContext.setTokens` (which is `updateTokens`). -/
def login (st : AuthState) (resp : ApiResult TokenResponse) : OpResult :=
  if st.currentUser.isPresent then
    { state := st, events := [], networkCalled := false,
      error := some AuthError.alreadyAuthenticated }
  else
    match resp with
    | ApiResult.err _ =>
        { state := st, events := [], networkCalled := true,
          error := some AuthError.invalidCredentials }
    | ApiResult.ok r =>
        let res := updateTokens st (some (pairOfResponse r))
        { state := res.1, events := res.2, networkCalled := true,
          error := none }

/-- Function `logout` from `useAuth`: throws if `authContext.currentUser` is falsy;
otherwise calls `authContext.setTokens(null)` (i.e. `updateTokens none`)
and then `authContext.setCurrentUser(null)`.  No network call. -/
def logout (st : AuthState) : OpResult :=
  if st.currentUser.isPresent then
    let res := updateTokens st none
    { state := setCurrentUser res.1 TriState.nullV, events := res.2,
      networkCalled := false, error := none }
  else
    { state := st, events := [], networkCalled := false,
      error := some AuthError.notAuthenticated }

/-- Truthiness of `authContext.tokens?.accessExpiresAt`, the condition
both for the SWR key of `useRefreshToken` being non-null (a scheduler
armed at all) and for a nonzero `refreshInterval` being computed. -/
def refreshArmed (st : AuthState) : Bool :=
  match st.tokens with
  | TriState.val p => p.accessExpiresAt ≠ 0
  | _ => false

/-- The guard inside the refresh fetcher: `timeUntilExpiration <= 10 * 1000`
with `timeUntilExpiration = accessExpiresAt - now`; the exchange with the
remote service happens only when this holds at fire time. -/
def willExchange (now accessExpiresAt : Nat) : Bool :=
  decide ((accessExpiresAt : Int) - (now : Int) ≤ 10 * 1000)

/-- The `refreshInterval` SWR option of `useRefreshToken`:
`tokens?.accessExpiresAt ? Math.max(accessExpiresAt - now - 10*1000, 0) : 0`. -/
def refreshInterval (st : AuthState) (now : Nat) : Int :=
  match st.tokens with
  | TriState.val p =>
      if p.accessExpiresAt ≠ 0 then
        max ((p.accessExpiresAt : Int) - (now : Int) - 10 * 1000) 0
      else 0
  | _ => 0

/-- The SWR options of `useRefreshToken` that shape retry behaviour:
`revalidateOnFocus: false, shouldRetryOnError: false`. -/
structure SWRFlags where
  revalidateOnFocus : Bool
  shouldRetryOnError : Bool
deriving Repr, DecidableEq

/-- The flag values passed to `useSWR` in `useRefreshToken`. -/
def refreshSWRFlags : SWRFlags :=
  { revalidateOnFocus := false, shouldRetryOnError := false }

/-- One firing of the refresh task of `useRefreshToken` at time `now`:
the async fetcher throws "Tokens are not available" when
`tokens?.accessExpiresAt` is falsy, skips when the expiry is more than
`10 * 1000` ms away, and otherwise exchanges the refresh token; a thrown
error (missing tokens, or a non-ok refresh response) reaches `onError`,
which calls `setTokens(null)` (i.e. `updateTokens none`) and then
`setCurrentUser(null)`.  `resp` is the response the remote service would
give were the exchange performed. -/
def refreshFire (st : AuthState) (now : Nat) (resp : ApiResult TokenResponse) :
    OpResult :=
  match st.tokens with
  | TriState.val p =>
      if p.accessExpiresAt ≠ 0 then
        if willExchange now p.accessExpiresAt then
          match resp with
          | ApiResult.ok r =>
              let res := updateTokens st (some (pairOfResponse r))
              { state := res.1, events := res.2, networkCalled := true,
                error := none }
          | ApiResult.err _ =>
              let res := updateTokens st none
              { state := setCurrentUser res.1 TriState.nullV,
                events := res.2, networkCalled := true, error := none }
        else
          { state := st, events := [], networkCalled := false,
            error := none }
      else
        let res := updateTokens st none
        { state := setCurrentUser res.1 TriState.nullV, events := res.2,
          networkCalled := false, error := none }
  | _ =>
      let res := updateTokens st none
      { state := setCurrentUser res.1 TriState.nullV, events := res.2,
        networkCalled := false, error := none }

/-- The body of a successful `GET /v1/users/me` response; `email` may be
null or undefined (`userResponse.email ?? ""` applies), modelled as
`Option`. -/
structure ProfileResponse where
  userId : String
  displayName : String
  email : Option String
deriving Repr, DecidableEq

/-- The user committed by the profile-fetch `onSuccess` in `useAuth`:
`{email: userResponse.email ?? "", userId: userResponse.userId,
name: userResponse.displayName}`. -/
def resolvedUser (r : ProfileResponse) : User :=
  { email := r.email.getD "", name := r.displayName, userId := r.userId }

/-- Truthiness of `authContext.tokens`, the condition for the profile SWR
key `"GET /v1/users/me"` being non-null (the fetch runs at all). -/
def profileArmed (st : AuthState) : Bool :=
  st.tokens.isPresent

/-- The commit performed by the profile-fetch `onSuccess`:
`authContext.setCurrentUser(resolvedUser)`. -/
def profileMerge (st : AuthState) (r : ProfileResponse) : AuthState :=
  setCurrentUser st (TriState.val (resolvedUser r))

/-- The operations that commit into the auth store: a login attempt (with
the response the remote service would give), a logout attempt, a firing
of the refresh task (covering refresh success and refresh failure), and a
profile merge delivered by the profile fetch. -/
inductive AuthOp where
  | loginOp : ApiResult TokenResponse → AuthOp
  | logoutOp : AuthOp
  | refreshFireOp : Nat → ApiResult TokenResponse → AuthOp
  | profileMergeOp : ProfileResponse → AuthOp

/-- One transition of the auth store.  A profile merge can only be
delivered while the profile SWR key is active (`tokens` truthy): with a
null key SWR performs no fetch and discards responses of deactivated
keys, so `onSuccess` never commits in a state with absent tokens. -/
def step (st : AuthState) (op : AuthOp) : AuthState :=
  match op with
  | AuthOp.loginOp resp => (login st resp).state
  | AuthOp.logoutOp => (logout st).state
  | AuthOp.refreshFireOp now resp => (refreshFire st now resp).state
  | AuthOp.profileMergeOp r =>
      if profileArmed st then profileMerge st r else st

/-- Run a sequence of operations from the initial state of `AuthProvider`. -/
def run (ops : List AuthOp) : AuthState :=
  ops.foldl step (authProviderInit none)

/-- Every single transition preserves `currentUser` present iff `tokens`
present. -/
lemma step_preserves_presence (st : AuthState) (op : AuthOp)
    (h : st.currentUser.isPresent = st.tokens.isPresent) :
    (step st op).currentUser.isPresent = (step st op).tokens.isPresent := by
  obtain ⟨tk, cu⟩ := st
  cases op with
  | loginOp resp =>
      simp only [step, login]
      split
      · exact h
      · cases resp with
        | ok r => simp [updateTokens, toTri, TriState.isPresent]
        | err m => exact h
  | logoutOp =>
      simp only [step, logout]
      split
      · simp [updateTokens, setCurrentUser, toTri, TriState.isPresent]
      · exact h
  | refreshFireOp now resp =>
      cases tk with
      | val p =>
          by_cases h0 : p.accessExpiresAt = 0
          · simp [step, refreshFire, h0, updateTokens, setCurrentUser, toTri,
              TriState.isPresent]
          · by_cases hw : willExchange now p.accessExpiresAt = true
            · cases resp with
              | ok r =>
                  simp [step, refreshFire, h0, hw, updateTokens, toTri,
                    TriState.isPresent]
              | err m =>
                  simp [step, refreshFire, h0, hw, updateTokens,
                    setCurrentUser, toTri, TriState.isPresent]
            · simp_all [step, refreshFire, h0, hw, TriState.isPresent]
      | nullV => simp [step, refreshFire, updateTokens, setCurrentUser, toTri,
          TriState.isPresent]
      | undefinedV =>
          simp [step, refreshFire, updateTokens, setCurrentUser, toTri,
            TriState.isPresent]
  | profileMergeOp r =>
      simp only [step]
      split
      · next hp =>
          simp only [profileArmed] at hp
          cases tk <;>
            simp_all [profileMerge, setCurrentUser, TriState.isPresent]
      · exact h

lemma foldl_preserves_presence (ops : List AuthOp) :
    ∀ st : AuthState, st.currentUser.isPresent = st.tokens.isPresent →
      (ops.foldl step st).currentUser.isPresent
        = (ops.foldl step st).tokens.isPresent := by
  induction ops with
  | nil => intro st h; simpa using h
  | cons op rest ih =>
      intro st h
      simpa using ih (step st op) (step_preserves_presence st op h)

/-- C1: for every sequence of operations on the auth store (login, logout,
refresh success, refresh failure, profile merge), after every commit
`currentUser` is present if and only if `tokens` is present — in
particular `currentUser` is absent whenever `tokens` is absent.  Since the
sequence is arbitrary, the equality holds after every prefix, i.e. at
every externally observable instant; the only intermediate commit inside
an operation (`logout` and the refresh `onError` clear `currentUser` a
second time after `updateTokens none` already cleared both cells) also
leaves both cells absent. -/
theorem auth_user_iff_tokens_invariant (ops : List AuthOp) :
    (run ops).currentUser.isPresent = (run ops).tokens.isPresent := by
  simpa [run] using
    foldl_preserves_presence ops (authProviderInit none) rfl

/-- The situations in which a firing of the refresh task fails: tokens
missing (or a falsy expiry) at fire time, or the exchange is performed
and the remote service answers with a non-success response or network
error. -/
def refreshAttemptFails (st : AuthState) (now : Nat)
    (resp : ApiResult TokenResponse) : Bool :=
  match st.tokens with
  | TriState.val p =>
      if p.accessExpiresAt ≠ 0 then
        if willExchange now p.accessExpiresAt then
          match resp with
          | ApiResult.err _ => true
          | ApiResult.ok _ => false
        else false
      else true
  | _ => true

/-- C2: every failing refresh exchange (non-success response, network
error, or missing tokens at fire time) clears both `tokens` and
`currentUser` to absent, invokes `onAuthChange` exactly once with the
absent value, throws nothing to a caller, and — by the
`shouldRetryOnError: false` SWR option — no retry of the refresh is
attempted. -/
theorem refresh_failure_forces_logout (st : AuthState) (now : Nat)
    (resp : ApiResult TokenResponse)
    (h : refreshAttemptFails st now resp = true) :
    (refreshFire st now resp).state
        = { tokens := TriState.nullV, currentUser := TriState.nullV } ∧
    (refreshFire st now resp).events = [none] ∧
    (refreshFire st now resp).error = none ∧
    refreshSWRFlags.shouldRetryOnError = false := by
  obtain ⟨tk, cu⟩ := st
  cases tk with
  | val p =>
      by_cases h0 : p.accessExpiresAt = 0
      · simp_all [refreshAttemptFails, refreshFire, updateTokens,
          setCurrentUser, toTri, refreshSWRFlags]
      · by_cases hw : willExchange now p.accessExpiresAt = true
        · cases resp with
          | ok r => simp_all [refreshAttemptFails, refreshFire]
          | err m =>
              simp_all [refreshAttemptFails, refreshFire, updateTokens,
                setCurrentUser, toTri, refreshSWRFlags]
        · simp_all [refreshAttemptFails]
  | nullV =>
      simp_all [refreshAttemptFails, refreshFire, updateTokens,
        setCurrentUser, toTri, refreshSWRFlags]
  | undefinedV =>
      simp_all [refreshAttemptFails, refreshFire, updateTokens,
        setCurrentUser, toTri, refreshSWRFlags]

theorem refresh_failure_forces_logout_witness :
    (refreshFire ⟨TriState.val ⟨"a", 20000, "r", 90000⟩,
        TriState.val provisionalUser⟩ 15000 (ApiResult.err "boom")).state
      = { tokens := TriState.nullV, currentUser := TriState.nullV } ∧
    (refreshFire ⟨TriState.val ⟨"a", 20000, "r", 90000⟩,
        TriState.val provisionalUser⟩ 15000 (ApiResult.err "boom")).events
      = [none] ∧
    (refreshFire ⟨TriState.val ⟨"a", 20000, "r", 90000⟩,
        TriState.val provisionalUser⟩ 15000 (ApiResult.err "boom")).error
      = none ∧
    refreshSWRFlags.shouldRetryOnError = false :=
  refresh_failure_forces_logout
    ⟨TriState.val ⟨"a", 20000, "r", 90000⟩, TriState.val provisionalUser⟩
    15000 (ApiResult.err "boom") (by decide)

/-- C3: for every present token pair the scheduled refresh delay equals
`max(accessExpiresAt - now - 10s, 0)`; for `accessExpiresAt = now + 60s`
the computed delay is `50s` and the exchange guard rejects every fire
before `now + 50s`; for `accessExpiresAt = now + 5s` the computed delay
is `0` and a fire at `now` passes the guard and performs the exchange
(i.e. the refresh attempt fires immediately rather than being skipped;
`useRefreshToken` leaves the initial SWR revalidation enabled, so the task
does fire as soon as the key becomes active). -/
theorem refresh_delay_policy :
    (∀ st p now, st.tokens = TriState.val p →
        refreshInterval st now
          = max ((p.accessExpiresAt : Int) - (now : Int) - 10 * 1000) 0) ∧
    (∀ now p cu, p.accessExpiresAt = now + 60 * 1000 →
        refreshInterval ⟨TriState.val p, cu⟩ now = 50 * 1000) ∧
    (∀ now t, t < now + 50 * 1000 →
        willExchange t (now + 60 * 1000) = false) ∧
    (∀ now p cu, p.accessExpiresAt = now + 5 * 1000 →
        refreshInterval ⟨TriState.val p, cu⟩ now = 0) ∧
    (∀ now p cu resp, p.accessExpiresAt = now + 5 * 1000 →
        willExchange now p.accessExpiresAt = true ∧
        (refreshFire ⟨TriState.val p, cu⟩ now resp).networkCalled = true) := by
  refine ⟨?_, ?_, ?_, ?_, ?_⟩
  · intro st p now h
    obtain ⟨tk, cu⟩ := st
    simp only [AuthState.tokens] at h
    subst h
    by_cases h0 : p.accessExpiresAt = 0
    · simp [refreshInterval, h0]
      omega
    · simp [refreshInterval, h0]
  · intro now p cu h
    have h0 : p.accessExpiresAt ≠ 0 := by omega
    simp [refreshInterval, h0, h]
  · intro now t ht
    simp only [willExchange, decide_eq_false_iff_not]
    push_cast
    omega
  · intro now p cu h
    have h0 : p.accessExpiresAt ≠ 0 := by omega
    simp [refreshInterval, h0, h]
  · intro now p cu resp h
    have h0 : p.accessExpiresAt ≠ 0 := by omega
    have hw : willExchange now p.accessExpiresAt = true := by
      simp only [willExchange, decide_eq_true_eq, h]
      push_cast
      omega
    refine ⟨hw, ?_⟩
    cases resp <;> simp [refreshFire, h0, hw]

theorem refresh_delay_policy_witness :
    refreshInterval
        ⟨TriState.val ⟨"a", 0 + 60 * 1000, "r", 0⟩, TriState.undefinedV⟩ 0
      = 50 * 1000 ∧
    willExchange 0 (0 + 60 * 1000) = false ∧
    refreshInterval
        ⟨TriState.val ⟨"a", 0 + 5 * 1000, "r", 0⟩, TriState.undefinedV⟩ 0
      = 0 ∧
    willExchange 0
        ((⟨"a", 0 + 5 * 1000, "r", 0⟩ : TokenPair).accessExpiresAt) = true ∧
    (refreshFire ⟨TriState.val ⟨"a", 0 + 5 * 1000, "r", 0⟩,
        TriState.undefinedV⟩ 0 (ApiResult.err "down")).networkCalled = true :=
  ⟨refresh_delay_policy.2.1 0 ⟨"a", 0 + 60 * 1000, "r", 0⟩
      TriState.undefinedV rfl,
   refresh_delay_policy.2.2.1 0 0 (by decide),
   refresh_delay_policy.2.2.2.1 0 ⟨"a", 0 + 5 * 1000, "r", 0⟩
      TriState.undefinedV rfl,
   (refresh_delay_policy.2.2.2.2 0 ⟨"a", 0 + 5 * 1000, "r", 0⟩
      TriState.undefinedV (ApiResult.err "down") rfl).1,
   (refresh_delay_policy.2.2.2.2 0 ⟨"a", 0 + 5 * 1000, "r", 0⟩
      TriState.undefinedV (ApiResult.err "down") rfl).2⟩

/-- C4: `login` with a present `currentUser` throws
`AlreadyAuthenticated`, performs no network call and leaves the store
byte-for-byte unchanged (and notifies nobody); if the precondition
passes and the remote service answers with a non-success response, it
throws `InvalidCredentials` and leaves the store unchanged. -/
theorem login_error_cases :
    (∀ st resp, st.currentUser.isPresent = true →
        login st resp
          = { state := st, events := [], networkCalled := false,
              error := some AuthError.alreadyAuthenticated }) ∧
    (∀ st m, st.currentUser.isPresent = false →
        login st (ApiResult.err m)
          = { state := st, events := [], networkCalled := true,
              error := some AuthError.invalidCredentials }) := by
  constructor
  · intro st resp h
    simp [login, h]
  · intro st m h
    simp [login, h]

theorem login_error_cases_witness :
    login ⟨TriState.val ⟨"a", 9, "r", 9⟩, TriState.val ⟨"e", "n", "u"⟩⟩
        (ApiResult.ok ⟨"x", 1, "y", 2⟩)
      = { state := ⟨TriState.val ⟨"a", 9, "r", 9⟩,
                    TriState.val ⟨"e", "n", "u"⟩⟩,
          events := [], networkCalled := false,
          error := some AuthError.alreadyAuthenticated } ∧
    login ⟨TriState.nullV, TriState.nullV⟩ (ApiResult.err "bad")
      = { state := ⟨TriState.nullV, TriState.nullV⟩,
          events := [], networkCalled := true,
          error := some AuthError.invalidCredentials } :=
  ⟨login_error_cases.1
      ⟨TriState.val ⟨"a", 9, "r", 9⟩, TriState.val ⟨"e", "n", "u"⟩⟩
      (ApiResult.ok ⟨"x", 1, "y", 2⟩) (by decide),
   login_error_cases.2 ⟨TriState.nullV, TriState.nullV⟩ "bad" (by decide)⟩

/-- C5: `logout` with an absent `currentUser` throws `NotAuthenticated`
and leaves the store unchanged; with a present `currentUser` it always
succeeds with no network call, committing `tokens = null` (through
`updateTokens none`, which already clears `currentUser` and notifies
once) and then `currentUser = null`, so both cells end absent. -/
theorem logout_cases :
    (∀ st, st.currentUser.isPresent = false →
        logout st
          = { state := st, events := [], networkCalled := false,
              error := some AuthError.notAuthenticated }) ∧
    (∀ st, st.currentUser.isPresent = true →
        logout st
          = { state := { tokens := TriState.nullV,
                         currentUser := TriState.nullV },
              events := [none], networkCalled := false, error := none }) := by
  constructor
  · intro st h
    simp [logout, h]
  · intro st h
    simp [logout, h, updateTokens, setCurrentUser, toTri]

theorem logout_cases_witness :
    logout ⟨TriState.nullV, TriState.nullV⟩
      = { state := ⟨TriState.nullV, TriState.nullV⟩, events := [],
          networkCalled := false,
          error := some AuthError.notAuthenticated } ∧
    logout ⟨TriState.val ⟨"a", 9, "r", 9⟩, TriState.val ⟨"e", "n", "u"⟩⟩
      = { state := { tokens := TriState.nullV,
                     currentUser := TriState.nullV },
          events := [none], networkCalled := false, error := none } :=
  ⟨logout_cases.1 ⟨TriState.nullV, TriState.nullV⟩ (by decide),
   logout_cases.2
      ⟨TriState.val ⟨"a", 9, "r", 9⟩, TriState.val ⟨"e", "n", "u"⟩⟩
      (by decide)⟩

/-- C6: a successful refresh exchange replaces the entire stored
`TokenPair` wholesale with the four values of the response (access token,
access expiry, refresh token, refresh expiry), notifies once with the new
pair, and — because `refreshInterval` is recomputed from the committed
state — the scheduler is re-armed against the new `accessExpiresAt`. -/
theorem refresh_success_replaces_pair (st : AuthState) (p : TokenPair)
    (now : Nat) (r : TokenResponse) (h1 : st.tokens = TriState.val p)
    (h2 : p.accessExpiresAt ≠ 0)
    (h3 : willExchange now p.accessExpiresAt = true) :
    (refreshFire st now (ApiResult.ok r)).state.tokens
        = TriState.val { access := r.accessToken,
                         accessExpiresAt := r.accessTokenExpiresAt,
                         refresh := r.refreshToken,
                         refreshExpiresAt := r.refreshTokenExpiresAt } ∧
    (refreshFire st now (ApiResult.ok r)).events
        = [some (pairOfResponse r)] ∧
    (∀ t : Nat,
        refreshInterval (refreshFire st now (ApiResult.ok r)).state t
          = max ((r.accessTokenExpiresAt : Int) - (t : Int) - 10 * 1000) 0) := by
  obtain ⟨tk, cu⟩ := st
  simp only [AuthState.tokens] at h1
  subst h1
  refine ⟨?_, ?_, ?_⟩
  · simp [refreshFire, h2, h3, updateTokens, toTri, pairOfResponse]
  · simp [refreshFire, h2, h3, updateTokens]
  · intro t
    by_cases hz : r.accessTokenExpiresAt = 0
    · simp [refreshFire, h2, h3, updateTokens, toTri, refreshInterval,
        pairOfResponse, hz]
      omega
    · simp [refreshFire, h2, h3, updateTokens, toTri, refreshInterval,
        pairOfResponse, hz]

theorem refresh_success_replaces_pair_witness :
    (refreshFire ⟨TriState.val ⟨"a", 20000, "r", 90000⟩,
          TriState.val provisionalUser⟩ 15000
        (ApiResult.ok ⟨"a2", 80000, "r2", 160000⟩)).state.tokens
      = TriState.val { access := "a2", accessExpiresAt := 80000,
                       refresh := "r2", refreshExpiresAt := 160000 } ∧
    (refreshFire ⟨TriState.val ⟨"a", 20000, "r", 90000⟩,
          TriState.val provisionalUser⟩ 15000
        (ApiResult.ok ⟨"a2", 80000, "r2", 160000⟩)).events
      = [some (pairOfResponse ⟨"a2", 80000, "r2", 160000⟩)] ∧
    (∀ t : Nat,
        refreshInterval
          (refreshFire ⟨TriState.val ⟨"a", 20000, "r", 90000⟩,
              TriState.val provisionalUser⟩ 15000
            (ApiResult.ok ⟨"a2", 80000, "r2", 160000⟩)).state t
          = max ((80000 : Int) - (t : Int) - 10 * 1000) 0) :=
  refresh_success_replaces_pair
    ⟨TriState.val ⟨"a", 20000, "r", 90000⟩, TriState.val provisionalUser⟩
    ⟨"a", 20000, "r", 90000⟩ 15000 ⟨"a2", 80000, "r2", 160000⟩
    rfl (by decide) (by decide)

/-- C7: a fire of the scheduled refresh task performs the exchange only
when `accessExpiresAt` is within the 10-second safety margin of `now`:
outside the margin the fire is a skip that performs no exchange, changes
nothing and notifies nobody (so the schedule, a pure function of the
unchanged state, is not re-armed by the fire itself); conversely a
performed exchange implies tokens were present with a truthy expiry
within the margin; and while tokens are absent no task is armed at all
(null SWR key and a zero `refreshInterval`). -/
theorem refresh_fire_guard_policy :
    (∀ st p now resp, st.tokens = TriState.val p → p.accessExpiresAt ≠ 0 →
        willExchange now p.accessExpiresAt = false →
        refreshFire st now resp
          = { state := st, events := [], networkCalled := false,
              error := none }) ∧
    (∀ st now resp, (refreshFire st now resp).networkCalled = true →
        ∃ p, st.tokens = TriState.val p ∧ p.accessExpiresAt ≠ 0 ∧
          willExchange now p.accessExpiresAt = true) ∧
    (∀ st now, st.tokens.isPresent = false →
        refreshArmed st = false ∧ refreshInterval st now = 0) := by
  refine ⟨?_, ?_, ?_⟩
  · intro st p now resp h1 h2 h3
    obtain ⟨tk, cu⟩ := st
    simp only [AuthState.tokens] at h1
    subst h1
    simp [refreshFire, h2, h3]
  · intro st now resp h
    obtain ⟨tk, cu⟩ := st
    cases tk with
    | val p =>
        by_cases h0 : p.accessExpiresAt = 0
        · simp_all [refreshFire, updateTokens, setCurrentUser, toTri]
        · by_cases hw : willExchange now p.accessExpiresAt = true
          · exact ⟨p, rfl, h0, hw⟩
          · simp_all [refreshFire]
    | nullV =>
        simp_all [refreshFire, updateTokens, setCurrentUser, toTri]
    | undefinedV =>
        simp_all [refreshFire, updateTokens, setCurrentUser, toTri]
  · intro st now h
    obtain ⟨tk, cu⟩ := st
    cases tk <;> simp_all [TriState.isPresent, refreshArmed, refreshInterval]

theorem refresh_fire_guard_policy_witness :
    refreshFire ⟨TriState.val ⟨"a", 60000, "r", 90000⟩,
        TriState.val provisionalUser⟩ 0 (ApiResult.err "down")
      = { state := ⟨TriState.val ⟨"a", 60000, "r", 90000⟩,
                    TriState.val provisionalUser⟩,
          events := [], networkCalled := false, error := none } ∧
    (∃ p, (⟨TriState.val ⟨"a", 15000, "r", 90000⟩,
          TriState.val provisionalUser⟩ : AuthState).tokens
            = TriState.val p ∧
        p.accessExpiresAt ≠ 0 ∧ willExchange 10000 p.accessExpiresAt = true) ∧
    (refreshArmed ⟨TriState.nullV, TriState.nullV⟩ = false ∧
        refreshInterval ⟨TriState.nullV, TriState.nullV⟩ 7 = 0) :=
  ⟨refresh_fire_guard_policy.1
      ⟨TriState.val ⟨"a", 60000, "r", 90000⟩, TriState.val provisionalUser⟩
      ⟨"a", 60000, "r", 90000⟩ 0 (ApiResult.err "down") rfl (by decide)
      (by decide),
   refresh_fire_guard_policy.2.1
      ⟨TriState.val ⟨"a", 15000, "r", 90000⟩, TriState.val provisionalUser⟩
      10000 (ApiResult.ok ⟨"a2", 80000, "r2", 160000⟩) (by decide),
   refresh_fire_guard_policy.2.2 ⟨TriState.nullV, TriState.nullV⟩ 7
      (by decide)⟩

/-- C8: `setTokens` (which `AuthProvider` wires to `updateTokens`) with a
present pair stores the pair and, in the same commit, sets `currentUser`
to the provisional placeholder with empty-string fields; with the absent
value it clears both cells; and in both cases it invokes the external
change notifier `onAuthChange` exactly once, with the new token value. -/
theorem setTokens_provisional_user_and_single_notification :
    (∀ st p, (updateTokens st (some p)).1.tokens = TriState.val p ∧
        (updateTokens st (some p)).1.currentUser
          = TriState.val provisionalUser) ∧
    provisionalUser = { email := "", name := "", userId := "" } ∧
    (∀ st, (updateTokens st none).1.tokens = TriState.nullV ∧
        (updateTokens st none).1.currentUser = TriState.nullV) ∧
    (∀ st t, (updateTokens st t).2 = [t] ∧
        (updateTokens st t).2.length = 1) := by
  refine ⟨fun st p => ⟨rfl, rfl⟩, rfl, fun st => ⟨rfl, rfl⟩,
    fun st t => ⟨rfl, rfl⟩⟩

/-- C9: the code does NOT hydrate the store from `initialTokens`: the
prop is destructured in `AuthProvider` but never used, and both `useState`
cells start at `undefined` whatever configuration is supplied — the
initial `tokens` is uninitialized, never the supplied pair.  This theorem
evaluates the embedded initializer and documents the divergence from the
declared configuration surface. -/
theorem authProviderInit_ignores_initialTokens :
    ∀ cfg : Option (Option TokenPair),
      authProviderInit cfg = authProviderInit none ∧
      (authProviderInit cfg).tokens = TriState.undefinedV ∧
      ∀ p : TokenPair, (authProviderInit (some (some p))).tokens
        ≠ TriState.val p := by
  intro cfg
  exact ⟨rfl, rfl, fun p h => by simp [authProviderInit] at h⟩

/-- C10: the user committed by a successful profile fetch takes `userId`
from the `userId` of the response and `name` from the `displayName` of
the response as-is, while `email` falls back to the empty string when
the `email` of the response is null or undefined; the commit goes
through `setCurrentUser` and leaves `tokens` untouched. -/
theorem profile_merge_resolved_user_fields :
    (∀ st r, (profileMerge st r).tokens = st.tokens ∧
        (profileMerge st r).currentUser
          = TriState.val { email := r.email.getD "", name := r.displayName,
                           userId := r.userId }) ∧
    (∀ r, r.email = none → (resolvedUser r).email = "") := by
  constructor
  · intro st r
    exact ⟨rfl, rfl⟩
  · intro r h
    simp [resolvedUser, h]

theorem profile_merge_resolved_user_fields_witness :
    (profileMerge ⟨TriState.val ⟨"a", 9, "r", 9⟩,
          TriState.val provisionalUser⟩ ⟨"u1", "Ann", none⟩).tokens
        = TriState.val ⟨"a", 9, "r", 9⟩ ∧
    (resolvedUser ⟨"u1", "Ann", none⟩).email = "" :=
  ⟨(profile_merge_resolved_user_fields.1
      ⟨TriState.val ⟨"a", 9, "r", 9⟩, TriState.val provisionalUser⟩
      ⟨"u1", "Ann", none⟩).1,
   profile_merge_resolved_user_fields.2 ⟨"u1", "Ann", none⟩ rfl⟩

theorem authProviderInit_ignores_initialTokens_witness :
    (authProviderInit (some (some ⟨"a", 1, "r", 2⟩))).tokens
        = TriState.undefinedV ∧
    (authProviderInit (some (some (⟨"a", 1, "r", 2⟩ : TokenPair)))).tokens
        ≠ TriState.val ⟨"a", 1, "r", 2⟩ :=
  ⟨(authProviderInit_ignores_initialTokens (some (some ⟨"a", 1, "r", 2⟩))).2.1,
   (authProviderInit_ignores_initialTokens
      (some (some ⟨"a", 1, "r", 2⟩))).2.2 ⟨"a", 1, "r", 2⟩⟩
